import Mathlib

/-!
Verification of the token lifecycle subsystem of the khni/auth repository:
a shallow embedding of the access-token service, the refresh-token service,
the orchestrating auth-tokens service and the lazy module registry, with
theorems settling the specification claims about them.

Modelling conventions:
* Timestamps (JS Date values) are natural numbers (milliseconds since epoch);
  the JS comparison d1 < d2 becomes < on Nat.
* The clock is explicit: operations that read the clock in the source
  receive a now parameter.
* Thrown errors become Except values; the repository, the crypto token
  generator and the user lookup are pure collaborators (the repository is an
  in-memory list of records, the crypto output and repository-assigned ids
  are explicit parameters of the operations that consume them).
-/

/-- Domain error codes raised as AuthDomainError in the source. -/
inductive AuthErrorCode where
  | REFRESH_TOKEN_INVALID
  | MISSING_ACCESS_TOKEN
  | EXPIRED_ACCESS_TOKEN
  deriving DecidableEq, Repr

/-- Codes of AuthUnexpectedError raised by the refresh-token service. -/
inductive AuthUnexpectedCode where
  | REFRESHTOKEN_VERIFY_FAILED
  | REFRESHTOKEN_REVOKE_FAILED
  | REFRESHTOKEN_CREATE_FAILED
  deriving DecidableEq, Repr

/-- The two-tier error taxonomy of the source: AuthDomainError carries a
domain code, AuthUnexpectedError a stable unexpected-failure code, and
other models an arbitrary exception thrown by a collaborator. -/
inductive AuthError where
  | domainError (code : AuthErrorCode)
  | unexpectedError (code : AuthUnexpectedCode)
  | other (msg : String)
  deriving DecidableEq, Repr

/-- RefreshTokenModel from interfaces/IRefreshTokenRepository.ts. -/
structure RefreshTokenRecord where
  id : String
  createdAt : Nat
  updatedAt : Nat
  token : String
  userId : String
  expiresAt : Nat
  revokedAt : Option Nat
  deriving DecidableEq, Repr

/-- The data the refresh-token service passes to repository.create. -/
structure RefreshTokenCreateData where
  token : String
  userId : String
  expiresAt : Nat
  deriving DecidableEq, Repr

/-- repository.findUnique with a where clause on the token column:
the first stored record whose token equals the key. -/
def findUniqueByToken : List RefreshTokenRecord → String → Option RefreshTokenRecord
  | [], _ => none
  | r :: rs, token => if r.token = token then some r else findUniqueByToken rs token

/-- repository.create: the store assigns id and the createdAt and updatedAt
timestamps, appends the new record and returns it. -/
def repoCreate (repo : List RefreshTokenRecord) (data : RefreshTokenCreateData)
    (newId : String) (now : Nat) : RefreshTokenRecord × List RefreshTokenRecord :=
  let r : RefreshTokenRecord :=
    { id := newId, createdAt := now, updatedAt := now, token := data.token,
      userId := data.userId, expiresAt := data.expiresAt, revokedAt := none }
  (r, repo ++ [r])

/-- repository.update with a where clause on the token column and data
setting revokedAt: updates the first matching record; none when no record
matches (the store raises, which the service wraps). -/
def updateRevokedAt : List RefreshTokenRecord → String → Nat →
    Option (RefreshTokenRecord × List RefreshTokenRecord)
  | [], _, _ => none
  | r :: rs, token, now =>
    if r.token = token then
      some ({ r with revokedAt := some now }, { r with revokedAt := some now } :: rs)
    else
      match updateRevokedAt rs token now with
      | none => none
      | some (u, rs2) => some (u, r :: rs2)

/-- Modelled from the spec: generateExpiredDate from the external utils
package, the duration-to-absolute-expiry function; it reads the clock and
adds the configured duration, so with the clock explicit it maps the
current time and the duration to their sum. -/
def generateExpiredDateModel (now duration : Nat) : Nat := now + duration

/-- RefreshTokenService (src/auth-tokens/RefreshTokenService.ts). The field
expiresAt is computed once, in the constructor; findUniqueUserById is the
externally supplied user lookup (only its some/none outcome is read). -/
structure RefreshTokenService where
  refreshTokenExpiresIn : Nat
  findUniqueUserById : String → Option String
  expiresAt : Nat

/-- The constructor of RefreshTokenService: it invokes the
duration-to-expiry function once, with the construction-time clock. -/
def RefreshTokenService.make (generateExpiredDate : Nat → Nat → Nat)
    (constructionNow : Nat) (refreshTokenExpiresIn : Nat)
    (findUniqueUserById : String → Option String) : RefreshTokenService :=
  { refreshTokenExpiresIn := refreshTokenExpiresIn,
    findUniqueUserById := findUniqueUserById,
    expiresAt := generateExpiredDate constructionNow refreshTokenExpiresIn }

/-- RefreshTokenService.create: the crypto token generator output is the
freshTok parameter; the record is persisted with the expiresAt stored in the
service instance. The callNow parameter is the clock at call time; the
source create never reads the clock itself (the repository consumes it for
its assigned timestamps only). -/
def RefreshTokenService.create (svc : RefreshTokenService)
    (repo : List RefreshTokenRecord) (callNow : Nat) (freshTok newId userId : String) :
    RefreshTokenRecord × List RefreshTokenRecord :=
  repoCreate repo { token := freshTok, userId := userId, expiresAt := svc.expiresAt } newId callNow

/-- RefreshTokenService.verify: look up the record by token; fail with
REFRESH_TOKEN_INVALID when it is missing, its expiresAt lies strictly
before now, or its revokedAt is set; then fail with the same code when the
owning user is not found; otherwise return the stored userId. -/
def RefreshTokenService.verify (svc : RefreshTokenService)
    (repo : List RefreshTokenRecord) (now : Nat) (token : String) :
    Except AuthError String :=
  match findUniqueByToken repo token with
  | none => Except.error (AuthError.domainError AuthErrorCode.REFRESH_TOKEN_INVALID)
  | some refreshToken =>
    if refreshToken.expiresAt < now ∨ refreshToken.revokedAt.isSome = true then
      Except.error (AuthError.domainError AuthErrorCode.REFRESH_TOKEN_INVALID)
    else
      match svc.findUniqueUserById refreshToken.userId with
      | none => Except.error (AuthError.domainError AuthErrorCode.REFRESH_TOKEN_INVALID)
      | some _ => Except.ok refreshToken.userId

/-- RefreshTokenService.revoke: repository.update setting revokedAt to the
current time; a store failure (no matching record) is wrapped as
REFRESHTOKEN_REVOKE_FAILED. -/
def RefreshTokenService.revoke (repo : List RefreshTokenRecord) (now : Nat)
    (token : String) : Except AuthError (RefreshTokenRecord × List RefreshTokenRecord) :=
  match updateRevokedAt repo token now with
  | none => Except.error (AuthError.unexpectedError AuthUnexpectedCode.REFRESHTOKEN_REVOKE_FAILED)
  | some p => Except.ok p

/-- The validity predicate in the words of the spec: a record is valid for
use iff revokedAt is null AND expiresAt > now. (To be compared with what
verify actually accepts.) -/
def specValidForUse (r : RefreshTokenRecord) (now : Nat) : Bool :=
  r.revokedAt.isNone && decide (r.expiresAt > now)

/-- The payload type of access tokens: the claims {userId}. -/
structure AccessClaims where
  userId : String
  deriving DecidableEq, Repr

/-- A well-formed signed token: payload, the secret it was signed with
(standing for the signature), issued-at and expiry instants. -/
structure SignedToken where
  payload : AccessClaims
  secret : String
  iat : Nat
  exp : Nat
  deriving DecidableEq, Repr

/-- A string handed to the codec: either a well-formed signed token or an
arbitrary other string (structurally corrupt input); the empty string is
garbage with s equal to the empty string. -/
inductive JwtStr where
  | signed (tok : SignedToken)
  | garbage (s : String)
  deriving DecidableEq, Repr

/-- The failures of the signed-token primitive: TokenExpiredError, an
invalid-signature JsonWebTokenError, a malformed-structure JsonWebTokenError. -/
inductive JwtError where
  | tokenExpired
  | invalidSignature
  | malformed
  deriving DecidableEq, Repr

/-- Modelled from the spec: the external signed-token primitive
(jsonwebtoken) sign operation — it embeds the payload, signs with the
secret, and stamps issued-at now and expiry now plus the duration. -/
def jsonwebtokenSign (secret : String) (payload : AccessClaims)
    (now expiresIn : Nat) : JwtStr :=
  JwtStr.signed { payload := payload, secret := secret, iat := now, exp := now + expiresIn }

/-- Modelled from the spec: the external signed-token primitive
(jsonwebtoken) verify operation — malformed input fails with a generic
invalid condition, a wrong signature fails with the invalid-signature
condition, an expiry at or before now fails with the distinguished
expired condition, otherwise the payload is returned. -/
def jsonwebtokenVerify (secret : String) (now : Nat) :
    JwtStr → Except JwtError AccessClaims
  | JwtStr.garbage _ => Except.error JwtError.malformed
  | JwtStr.signed tok =>
    if tok.secret ≠ secret then Except.error JwtError.invalidSignature
    else if tok.exp ≤ now then Except.error JwtError.tokenExpired
    else Except.ok tok.payload

/-- Jwt.sign (src/core/token/Jwt.ts): rejects numeric expiresIn (a
type-level guard here), strips pre-existing temporal claims (none exist on
AccessClaims) and calls the primitive. -/
def Jwt.sign (jwtSecret : String) (payload : AccessClaims) (now expiresIn : Nat) : JwtStr :=
  jsonwebtokenSign jwtSecret payload now expiresIn

/-- Jwt.verify (src/core/token/Jwt.ts): calls the primitive and rethrows
any failure unchanged. -/
def Jwt.verify (jwtSecret : String) (now : Nat) (token : JwtStr) :
    Except JwtError AccessClaims :=
  jsonwebtokenVerify jwtSecret now token

/-- The IToken collaborator the access-token service is constructed with:
a sign and a verify function (the clock made explicit). -/
structure IToken where
  sign : AccessClaims → Nat → Nat → JwtStr
  verify : Nat → JwtStr → Except JwtError AccessClaims

/-- The Jwt class instantiated at a secret, as composed in index.ts. -/
def mkJwt (jwtSecret : String) : IToken :=
  { sign := Jwt.sign jwtSecret, verify := Jwt.verify jwtSecret }

/-- AccessTokenService (src/auth-tokens/AccessTokenService.ts): holds the
token codec and the configured access-token duration. -/
structure AccessTokenService where
  tokenService : IToken
  accessTokenExpiresIn : Nat

/-- AccessTokenService.generate: sign {userId} with the configured
expiresIn. -/
def AccessTokenService.generate (svc : AccessTokenService) (now : Nat)
    (userId : String) : JwtStr :=
  svc.tokenService.sign { userId := userId } now svc.accessTokenExpiresIn

/-- The JS falsiness of the token argument of verify: null or undefined
(none) and the empty string are falsy; a well-formed signed-token string is
never empty. -/
def tokenIsFalsy : Option JwtStr → Bool
  | none => true
  | some (JwtStr.garbage s) => s = ""
  | some (JwtStr.signed _) => false

/-- The outcomes of AccessTokenService.verify: a domain error
(MISSING_ACCESS_TOKEN or EXPIRED_ACCESS_TOKEN) or a codec failure re-raised
unchanged. -/
inductive AccessVerifyError where
  | domainError (code : AuthErrorCode)
  | jwtError (e : JwtError)
  deriving DecidableEq, Repr

/-- AccessTokenService.verify: throw MISSING_ACCESS_TOKEN on a falsy
token; map the distinguished expired codec failure to
EXPIRED_ACCESS_TOKEN; re-raise any other codec failure unchanged;
otherwise return the decoded claims. (The branch for none under a
non-falsy token is unreachable.) -/
def AccessTokenService.verify (svc : AccessTokenService) (now : Nat)
    (token : Option JwtStr) : Except AccessVerifyError AccessClaims :=
  if tokenIsFalsy token then
    Except.error (AccessVerifyError.domainError AuthErrorCode.MISSING_ACCESS_TOKEN)
  else
    match token with
    | none => Except.error (AccessVerifyError.domainError AuthErrorCode.MISSING_ACCESS_TOKEN)
    | some t =>
      match svc.tokenService.verify now t with
      | Except.ok claims => Except.ok claims
      | Except.error JwtError.tokenExpired =>
        Except.error (AccessVerifyError.domainError AuthErrorCode.EXPIRED_ACCESS_TOKEN)
      | Except.error e => Except.error (AccessVerifyError.jwtError e)

/-- getAccessTokenService factory of index.ts: builds the Jwt codec at the
configured secret and wires it into the access-token service. -/
def getAccessTokenServiceFactory (jwtSecret : String) (accessTokenExpiresIn : Nat) :
    AccessTokenService :=
  { tokenService := mkJwt jwtSecret, accessTokenExpiresIn := accessTokenExpiresIn }

/-- The IAccessTokenService collaborator as the orchestrator sees it: its
generate may throw (an Except models the thrown value, propagated
unchanged). -/
structure IAccessTokenService where
  generate : Nat → String → Except AuthError JwtStr

/-- The real access-token service wrapped as the collaborator interface;
its generate never fails. -/
def AccessTokenService.asInterface (svc : AccessTokenService) : IAccessTokenService :=
  { generate := fun now userId => Except.ok (svc.generate now userId) }

/-- The pair returned by the orchestrator: the token string of the new
refresh record together with the signed access token. -/
structure TokenPair where
  refreshToken : String
  accessToken : JwtStr
  deriving DecidableEq, Repr

/-- JS falsiness of a string-or-nullish argument: null or undefined (none)
and the empty string are falsy. -/
def strInputFalsy : Option String → Bool
  | none => true
  | some s => s = ""

/-- AuthTokensService (src/auth-tokens/AuthTokensService.ts): composes the
refresh-token service and the access-token collaborator. -/
structure AuthTokensService where
  refreshTokenService : RefreshTokenService
  accessTokenService : IAccessTokenService

/-- AuthTokensService.generate: create a refresh record first, then the
access token; a failure of the second step propagates while the repository
state produced by the first step is kept. The now, freshTok and newId
parameters are the clock, the crypto output and the store-assigned id of
this call. -/
def AuthTokensService.generate (svc : AuthTokensService)
    (repo : List RefreshTokenRecord) (now : Nat) (freshTok newId : String)
    (userId : String) : Except AuthError TokenPair × List RefreshTokenRecord :=
  let p := svc.refreshTokenService.create repo now freshTok newId userId
  match svc.accessTokenService.generate now userId with
  | Except.error e => (Except.error e, p.2)
  | Except.ok accessToken =>
    (Except.ok { refreshToken := p.1.token, accessToken := accessToken }, p.2)

/-- AuthTokensService.refresh: reject a falsy token at once; verify the
refresh token to recover the userId; reject a falsy userId; otherwise mint
a fresh pair through generate. -/
def AuthTokensService.refresh (svc : AuthTokensService)
    (repo : List RefreshTokenRecord) (now : Nat) (freshTok newId : String)
    (token : Option String) : Except AuthError TokenPair × List RefreshTokenRecord :=
  if strInputFalsy token then
    (Except.error (AuthError.domainError AuthErrorCode.REFRESH_TOKEN_INVALID), repo)
  else
    match svc.refreshTokenService.verify repo now (token.getD "") with
    | Except.error e => (Except.error e, repo)
    | Except.ok userId =>
      if userId = "" then
        (Except.error (AuthError.domainError AuthErrorCode.REFRESH_TOKEN_INVALID), repo)
      else
        svc.generate repo now freshTok newId userId

/-- AuthTokensService.logout: revoke the refresh token; failures propagate
unchanged. -/
def AuthTokensService.logout (svc : AuthTokensService)
    (repo : List RefreshTokenRecord) (now : Nat) (token : String) :
    Except AuthError (List RefreshTokenRecord) :=
  match RefreshTokenService.revoke repo now token with
  | Except.error e => Except.error e
  | Except.ok p => Except.ok p.2

/-- A concrete stored record whose expiry instant is 5, not revoked. -/
def recBoundary : RefreshTokenRecord :=
  { id := "rt-1", createdAt := 0, updatedAt := 0, token := "tok-b",
    userId := "user-b", expiresAt := 5, revokedAt := none }

/-- A concrete refresh-token service whose user lookup always succeeds. -/
def svcBoundary : RefreshTokenService :=
  { refreshTokenExpiresIn := 5, findUniqueUserById := fun u => some u, expiresAt := 5 }

/-- A concrete stored refresh record owned by user-1, far from expiry. -/
def recOld : RefreshTokenRecord :=
  { id := "rt-0", createdAt := 0, updatedAt := 0, token := "old-token",
    userId := "user-1", expiresAt := 50, revokedAt := none }

/-- A concrete orchestrator whose collaborators all succeed. -/
def svcOrchOk : AuthTokensService :=
  { refreshTokenService :=
      RefreshTokenService.make generateExpiredDateModel 0 100 (fun u => some u),
    accessTokenService := (getAccessTokenServiceFactory "sec" 10).asInterface }

/-- The refresh record svcOrchOk.refresh appends when called at instant 7
with crypto output new-token and assigned id rt-1. -/
def recNew1 : RefreshTokenRecord :=
  { id := "rt-1", createdAt := 7, updatedAt := 7, token := "new-token",
    userId := "user-1", expiresAt := 100, revokedAt := none }

/-- The pair svcOrchOk.refresh returns in that same concrete run. -/
def pairW : TokenPair :=
  { refreshToken := "new-token",
    accessToken := JwtStr.signed
      { payload := { userId := "user-1" }, secret := "sec", iat := 7, exp := 17 } }

/-- An access-token collaborator whose generate always throws. -/
def failingAccess : IAccessTokenService :=
  { generate := fun _ _ => Except.error (AuthError.other "sign failed") }

/-- A concrete orchestrator whose access-token step fails. -/
def svcOrchFail : AuthTokensService :=
  { refreshTokenService :=
      RefreshTokenService.make generateExpiredDateModel 0 100 (fun u => some u),
    accessTokenService := failingAccess }

/-- The repository-state transitions the core operations perform: a create
(a fresh unrevoked record appended by the store) or a successful revoke;
verify reads the state without changing it. -/
inductive Step : List RefreshTokenRecord → List RefreshTokenRecord → Prop where
  | create (repo : List RefreshTokenRecord) (data : RefreshTokenCreateData)
      (newId : String) (now : Nat) : Step repo (repoCreate repo data newId now).2
  | revoke (repo : List RefreshTokenRecord) (token : String) (now : Nat)
      (u : RefreshTokenRecord) (repo2 : List RefreshTokenRecord) :
      updateRevokedAt repo token now = some (u, repo2) → Step repo repo2

/-- Repository states reachable by any sequence of core operations. -/
def Reachable : List RefreshTokenRecord → List RefreshTokenRecord → Prop :=
  Relation.ReflTransGen Step

/-- The token currently resolves to a record whose revokedAt is set. -/
def revokedOn (repo : List RefreshTokenRecord) (token : String) : Prop :=
  ∃ r, findUniqueByToken repo token = some r ∧ r.revokedAt.isSome = true

/-- A concrete live record for the revocation scenarios. -/
def recAlive : RefreshTokenRecord :=
  { id := "rt-9", createdAt := 0, updatedAt := 0, token := "tok-r",
    userId := "user-r", expiresAt := 100, revokedAt := none }

/-- recAlive as revoke leaves it when called at instant 3. -/
def recAliveRevoked3 : RefreshTokenRecord := { recAlive with revokedAt := some 3 }

/-- A concrete record that was already revoked at instant 5. -/
def recRevoked5 : RefreshTokenRecord :=
  { id := "rt-5", createdAt := 0, updatedAt := 0, token := "tok-q",
    userId := "user-q", expiresAt := 100, revokedAt := some 5 }

/-- AuthModuleConfig of the lazy module (src/unnamed/part_001): signing
secret, the two durations, and the externally supplied user lookup (the
repository handle is the repository state, passed explicitly elsewhere in
this development). -/
structure AuthModuleConfig where
  jwtSecret : String
  accessTokenExpiresIn : Nat
  refreshTokenExpiresIn : Nat
  findUniqueUserById : String → Option String

/-- The process-wide mutable state of the module: the configuration store
(authTokensConfig), the three lazily-built singleton holders and the
one-time-log guard. -/
structure AuthModuleState where
  config : Option AuthModuleConfig
  accessTokenServiceInst : Option AccessTokenService
  refreshTokenServiceInst : Option RefreshTokenService
  authTokensServiceInst : Option AuthTokensService
  loggedServices : List String

/-- The state before initAuthTokensModule has ever been called. -/
def initialAuthModuleState : AuthModuleState :=
  { config := none, accessTokenServiceInst := none,
    refreshTokenServiceInst := none, authTokensServiceInst := none,
    loggedServices := [] }

/-- initAuthTokensModule: stores the configuration (authTokensConfig.set,
the store being modelled from the spec as a plain optional cell); builds
no service. -/
def initAuthTokensModule (s : AuthModuleState) (config : AuthModuleConfig) :
    AuthModuleState :=
  { s with config := some config }

/-- logOnce: record the one-time initialization log for a service name. -/
def logOnce (logged : List String) (serviceName : String) : List String :=
  if serviceName ∈ logged then logged else logged ++ [serviceName]

/-- getAccessTokenService of the module: return the cached instance if
present; otherwise read the stored configuration (authTokensConfig.get is
modelled from the spec as failing fatally when no configuration is
stored), build the service, cache it and log once. -/
def getAccessTokenServiceM (s : AuthModuleState) :
    Except String (AccessTokenService × AuthModuleState) :=
  match s.accessTokenServiceInst with
  | some svc => Except.ok (svc, s)
  | none =>
    match s.config with
    | none => Except.error "AuthTokensModule is not initialized"
    | some config =>
      let svc := getAccessTokenServiceFactory config.jwtSecret config.accessTokenExpiresIn
      Except.ok (svc, { s with
                          accessTokenServiceInst := some svc,
                          loggedServices := logOnce s.loggedServices "AccessTokenService" })

/-- The test-only reset of the module: null the three singleton holders
and clear the log guard; the configuration store is not touched. -/
def __resetAuthTokensModuleForTests (s : AuthModuleState) : AuthModuleState :=
  { s with
      accessTokenServiceInst := none,
      refreshTokenServiceInst := none,
      authTokensServiceInst := none,
      loggedServices := [] }

/-- A concrete module configuration. -/
def cfg0 : AuthModuleConfig :=
  { jwtSecret := "sec", accessTokenExpiresIn := 10,
    refreshTokenExpiresIn := 100, findUniqueUserById := fun u => some u }

/-!
## Claim theorems
-/

/-- verify only reads the repository through the token lookup. -/
theorem verify_congr_find (svc : RefreshTokenService)
    (repo repo2 : List RefreshTokenRecord) (now : Nat) (token : String)
    (h : findUniqueByToken repo2 token = findUniqueByToken repo token) :
    RefreshTokenService.verify svc repo2 now token =
      RefreshTokenService.verify svc repo now token := by
  unfold RefreshTokenService.verify
  rw [h]

/-- A successful verify presupposes the token lookup found a record. -/
theorem verify_ok_find_isSome (svc : RefreshTokenService)
    (repo : List RefreshTokenRecord) (now : Nat) (token u : String)
    (h : RefreshTokenService.verify svc repo now token = Except.ok u) :
    (findUniqueByToken repo token).isSome = true := by
  cases hf : findUniqueByToken repo token with
  | none => simp [RefreshTokenService.verify, hf] at h
  | some r => rfl

/-- Appending records does not change a lookup that already finds one. -/
theorem findUniqueByToken_append_of_isSome (l l2 : List RefreshTokenRecord)
    (t : String) (h : (findUniqueByToken l t).isSome = true) :
    findUniqueByToken (l ++ l2) t = findUniqueByToken l t := by
  induction l with
  | nil => simp [findUniqueByToken] at h
  | cons r rs ih =>
    by_cases hr : r.token = t
    · simp [findUniqueByToken, hr]
    · simp only [findUniqueByToken, hr, if_false, List.cons_append, if_neg hr] at h ⊢
      exact ih h

/-- Claim C1, both creates of one instance share the construction-time expiry. -/
theorem refresh_expiresAt_fixed_at_construction
    (gen : Nat → Nat → Nat) (t0 dur n1 n2 : Nat) (fu : String → Option String)
    (repo1 repo2 : List RefreshTokenRecord) (tk1 id1 u1 tk2 id2 u2 : String) :
    ((RefreshTokenService.make gen t0 dur fu).create repo1 n1 tk1 id1 u1).1.expiresAt = gen t0 dur
    ∧ ((RefreshTokenService.make gen t0 dur fu).create repo2 n2 tk2 id2 u2).1.expiresAt = gen t0 dur
    ∧ (RefreshTokenService.make generateExpiredDateModel t0 dur fu).expiresAt = t0 + dur := by
  exact ⟨rfl, rfl, rfl⟩

/-- Claim C4, access-token round trip: a token generated by the composed
access-token service for userId verifies to those claims at any instant
strictly before the expiry genNow plus the configured duration. -/
theorem access_token_roundtrip (jwtSecret userId : String) (dur genNow verifyNow : Nat)
    (h : verifyNow < genNow + dur) :
    (getAccessTokenServiceFactory jwtSecret dur).verify verifyNow
      (some ((getAccessTokenServiceFactory jwtSecret dur).generate genNow userId)) =
      Except.ok { userId := userId } := by
  have h2 : ¬ (genNow + dur ≤ verifyNow) := by omega
  simp [getAccessTokenServiceFactory, AccessTokenService.generate,
    AccessTokenService.verify, mkJwt, Jwt.sign, Jwt.verify, jsonwebtokenSign,
    jsonwebtokenVerify, tokenIsFalsy, h2]

/-- Witness for claim C4 at a concrete secret, user and times. -/
theorem access_token_roundtrip_witness :
    (getAccessTokenServiceFactory "secret-1" 600000).verify 0
      (some ((getAccessTokenServiceFactory "secret-1" 600000).generate 0 "user-1")) =
      Except.ok { userId := "user-1" } :=
  access_token_roundtrip "secret-1" "user-1" 600000 0 0 (by decide)

/-- Claim C5, classification of AccessTokenService.verify outcomes: the
missing-token domain error exactly on a falsy input (for every codec, so
the codec is never consulted there); the expired domain error exactly when
the codec reports expiry; any other codec failure re-raised unchanged; and
success exactly when the codec decodes the claims. -/
theorem access_verify_classification (svc : AccessTokenService) (now : Nat)
    (token : Option JwtStr) :
    ((svc.verify now token =
        Except.error (AccessVerifyError.domainError AuthErrorCode.MISSING_ACCESS_TOKEN))
      ↔ tokenIsFalsy token = true)
    ∧ ((svc.verify now token =
        Except.error (AccessVerifyError.domainError AuthErrorCode.EXPIRED_ACCESS_TOKEN))
      ↔ tokenIsFalsy token = false ∧
        ∃ t, token = some t ∧ svc.tokenService.verify now t = Except.error JwtError.tokenExpired)
    ∧ (∀ e : JwtError, (svc.verify now token = Except.error (AccessVerifyError.jwtError e))
      ↔ tokenIsFalsy token = false ∧ e ≠ JwtError.tokenExpired ∧
        ∃ t, token = some t ∧ svc.tokenService.verify now t = Except.error e)
    ∧ (∀ c : AccessClaims, (svc.verify now token = Except.ok c)
      ↔ tokenIsFalsy token = false ∧
        ∃ t, token = some t ∧ svc.tokenService.verify now t = Except.ok c) := by
  by_cases hf : tokenIsFalsy token = true
  · simp [AccessTokenService.verify, hf]
  · have hf2 : tokenIsFalsy token = false := by
      cases h : tokenIsFalsy token
      · rfl
      · exact absurd h hf
    match token with
    | none => simp [tokenIsFalsy] at hf2
    | some t =>
      simp only [AccessTokenService.verify, hf2, Bool.false_eq_true, if_false]
      cases hv : svc.tokenService.verify now t with
      | ok c =>
        simp [hv]
      | error e =>
        cases e with
        | tokenExpired =>
          simp [hv]
          intro e h1 h2
          exact h1 h2.symm
        | invalidSignature => simp [hv]
        | malformed => simp [hv]

/-- Claim C2 counterexample: at the instant now equal to the stored
expiresAt the spec-side validity predicate (expiresAt strictly greater
than now) rejects the record, yet verify returns the userId — the code
keeps a token usable at its exact expiry instant. -/
theorem verify_accepts_boundary_instant :
    RefreshTokenService.verify svcBoundary [recBoundary] 5 "tok-b" = Except.ok "user-b"
    ∧ specValidForUse recBoundary 5 = false := by
  exact ⟨rfl, rfl⟩

/-- Claim C2 (amended): verify fails with REFRESH_TOKEN_INVALID exactly
when no record with the token exists, or the record has expiresAt strictly
before now, or its revokedAt is set, or the owning user is not found; it
returns u exactly when the looked-up record has userId u, revokedAt null,
now at or before expiresAt, and an existing owner — so a record is
accepted iff revokedAt is null AND expiresAt is at least now (the record
whose expiresAt equals the current instant is still accepted). -/
theorem refresh_verify_characterization (svc : RefreshTokenService)
    (repo : List RefreshTokenRecord) (now : Nat) (token : String) :
    (RefreshTokenService.verify svc repo now token =
        Except.error (AuthError.domainError AuthErrorCode.REFRESH_TOKEN_INVALID)
      ↔ findUniqueByToken repo token = none
        ∨ ∃ r, findUniqueByToken repo token = some r ∧
            (r.expiresAt < now ∨ r.revokedAt.isSome = true ∨
              svc.findUniqueUserById r.userId = none))
    ∧ (∀ u : String, RefreshTokenService.verify svc repo now token = Except.ok u
      ↔ ∃ r, findUniqueByToken repo token = some r ∧ r.userId = u ∧
          r.revokedAt = none ∧ now ≤ r.expiresAt ∧
          (svc.findUniqueUserById r.userId).isSome = true) := by
  cases hf : findUniqueByToken repo token with
  | none => simp [RefreshTokenService.verify, hf]
  | some r =>
    by_cases hinv : r.expiresAt < now ∨ r.revokedAt.isSome = true
    · constructor
      · simp [RefreshTokenService.verify, hf, hinv]
        tauto
      · intro u
        simp [RefreshTokenService.verify, hf, hinv]
        intro h1 h2 h3
        rcases hinv with h | h
        · omega
        · rw [h2] at h
          simp at h
    · cases hu : svc.findUniqueUserById r.userId with
      | none =>
        constructor
        · simp [RefreshTokenService.verify, hf, hinv, hu]
        · intro u
          simp [RefreshTokenService.verify, hf, hinv, hu]
      | some user =>
        push_neg at hinv
        have hrvn : r.revokedAt = none := by
          cases hrv : r.revokedAt with
          | none => rfl
          | some t => exact absurd (by simp [hrv]) hinv.2
        have hlt : ¬ r.expiresAt < now := by omega
        constructor
        · simp [RefreshTokenService.verify, hf, hlt, hrvn, hu]
        · intro u
          simp [RefreshTokenService.verify, hf, hlt, hrvn, hu]
          intro _
          omega

/-- Claim C6: for every orchestrator (whatever its collaborators do) and
every repository state, refresh on a nullish or empty token returns
REFRESH_TOKEN_INVALID with the repository state untouched — the refresh
service, the repository and the user lookup are never consulted. -/
theorem refresh_falsy_rejected_early (svc : AuthTokensService)
    (repo : List RefreshTokenRecord) (now : Nat) (freshTok newId : String) :
    svc.refresh repo now freshTok newId none =
      (Except.error (AuthError.domainError AuthErrorCode.REFRESH_TOKEN_INVALID), repo)
    ∧ svc.refresh repo now freshTok newId (some "") =
      (Except.error (AuthError.domainError AuthErrorCode.REFRESH_TOKEN_INVALID), repo) := by
  constructor <;> simp [AuthTokensService.refresh, strInputFalsy]

/-- Claim C10: when the access-token step of generate throws after the
refresh record was created, the thrown error propagates and the repository
keeps the just-created record — no rollback, revocation or deletion. -/
theorem generate_no_rollback_on_access_failure (svc : AuthTokensService)
    (repo : List RefreshTokenRecord) (now : Nat) (freshTok newId userId : String)
    (e : AuthError) (h : svc.accessTokenService.generate now userId = Except.error e) :
    svc.generate repo now freshTok newId userId =
      (Except.error e,
        repo ++ [{ id := newId, createdAt := now, updatedAt := now, token := freshTok,
                   userId := userId, expiresAt := svc.refreshTokenService.expiresAt,
                   revokedAt := none }]) := by
  simp [AuthTokensService.generate, RefreshTokenService.create, repoCreate, h]

/-- Witness for claim C10 at a concrete failing collaborator. -/
theorem generate_no_rollback_on_access_failure_witness :
    svcOrchFail.generate [] 3 "ftok" "id1" "user-9" =
      (Except.error (AuthError.other "sign failed"),
        [{ id := "id1", createdAt := 3, updatedAt := 3, token := "ftok",
           userId := "user-9", expiresAt := 100, revokedAt := none }]) :=
  generate_no_rollback_on_access_failure svcOrchFail [] 3 "ftok" "id1" "user-9"
    (AuthError.other "sign failed") rfl

/-- Claim C7: a successful refresh only appends one brand-new, unrevoked
record whose token it returns; every pre-existing record, in particular the
record of the old token, is byte-for-byte unchanged, the old-token lookup
is unchanged, and the old token still verifies exactly as before. -/
theorem refresh_success_leaves_old_record_untouched (svc : AuthTokensService)
    (repo : List RefreshTokenRecord) (now : Nat) (freshTok newId : String)
    (token : Option String) (pair : TokenPair) (repo2 : List RefreshTokenRecord)
    (h : svc.refresh repo now freshTok newId token = (Except.ok pair, repo2)) :
    ∃ newRec : RefreshTokenRecord,
      repo2 = repo ++ [newRec] ∧ newRec.token = freshTok ∧ newRec.revokedAt = none ∧
      pair.refreshToken = newRec.token ∧
      findUniqueByToken repo2 (token.getD "") = findUniqueByToken repo (token.getD "") ∧
      RefreshTokenService.verify svc.refreshTokenService repo2 now (token.getD "") =
        RefreshTokenService.verify svc.refreshTokenService repo now (token.getD "") := by
  simp only [AuthTokensService.refresh] at h
  by_cases hfall : strInputFalsy token = true
  · rw [if_pos hfall] at h
    simp at h
  · rw [if_neg hfall] at h
    cases hv : svc.refreshTokenService.verify repo now (token.getD "") with
    | error e =>
      rw [hv] at h
      simp at h
    | ok userId =>
      rw [hv] at h
      simp only [] at h
      by_cases hu : userId = ""
      · rw [if_pos hu] at h
        simp at h
      · rw [if_neg hu] at h
        simp only [AuthTokensService.generate, RefreshTokenService.create, repoCreate] at h
        cases ha : svc.accessTokenService.generate now userId with
        | error e =>
          rw [ha] at h
          simp at h
        | ok accessTok =>
          rw [ha] at h
          simp only [] at h
          simp only [Prod.mk.injEq, Except.ok.injEq] at h
          obtain ⟨h1, h2⟩ := h
          subst h2
          have hs := verify_ok_find_isSome _ _ _ _ _ hv
          refine ⟨_, rfl, rfl, rfl, ?_,
            findUniqueByToken_append_of_isSome _ _ _ hs,
            (verify_congr_find _ _ _ _ _
              (findUniqueByToken_append_of_isSome _ _ _ hs)).trans hv⟩
          rw [← h1]

/-- Witness for claim C7 on a concrete successful refresh run. -/
theorem refresh_success_leaves_old_record_untouched_witness :
    ∃ newRec : RefreshTokenRecord,
      [recOld, recNew1] = [recOld] ++ [newRec] ∧ newRec.token = "new-token" ∧
      newRec.revokedAt = none ∧ pairW.refreshToken = newRec.token ∧
      findUniqueByToken [recOld, recNew1] ((some "old-token").getD "") =
        findUniqueByToken [recOld] ((some "old-token").getD "") ∧
      RefreshTokenService.verify svcOrchOk.refreshTokenService [recOld, recNew1] 7
          ((some "old-token").getD "") =
        RefreshTokenService.verify svcOrchOk.refreshTokenService [recOld] 7
          ((some "old-token").getD "") :=
  refresh_success_leaves_old_record_untouched svcOrchOk [recOld] 7 "new-token" "rt-1"
    (some "old-token") pairW [recOld, recNew1] (by rfl)

/-- A successful repository update on a token makes that token resolve to
the returned record, whose revokedAt is the revocation instant. -/
theorem updateRevokedAt_self (repo : List RefreshTokenRecord) (token : String)
    (now : Nat) (u : RefreshTokenRecord) (repo2 : List RefreshTokenRecord)
    (h : updateRevokedAt repo token now = some (u, repo2)) :
    findUniqueByToken repo2 token = some u ∧ u.revokedAt = some now := by
  induction repo generalizing u repo2 with
  | nil => simp [updateRevokedAt] at h
  | cons r rs ih =>
    simp only [updateRevokedAt] at h
    by_cases hr : r.token = token
    · rw [if_pos hr] at h
      simp only [Option.some.injEq, Prod.mk.injEq] at h
      obtain ⟨hu, hrepo⟩ := h
      subst hu
      subst hrepo
      constructor
      · simp [findUniqueByToken, hr]
      · rfl
    · rw [if_neg hr] at h
      cases hrec : updateRevokedAt rs token now with
      | none =>
        rw [hrec] at h
        simp at h
      | some p =>
        obtain ⟨u2, rs2⟩ := p
        rw [hrec] at h
        simp only [] at h
        simp only [Option.some.injEq, Prod.mk.injEq] at h
        obtain ⟨hu, hrepo⟩ := h
        subst hu
        subst hrepo
        obtain ⟨h1, h2⟩ := ih u2 rs2 hrec
        exact ⟨by simp [findUniqueByToken, hr, h1], h2⟩

/-- A revoked lookup stays revoked across any repository update. -/
theorem updateRevokedAt_preserves_revokedOn (repo : List RefreshTokenRecord)
    (tok2 : String) (now : Nat) (u : RefreshTokenRecord)
    (repo2 : List RefreshTokenRecord) (token : String)
    (hupd : updateRevokedAt repo tok2 now = some (u, repo2))
    (hrev : revokedOn repo token) : revokedOn repo2 token := by
  induction repo generalizing u repo2 with
  | nil => simp [updateRevokedAt] at hupd
  | cons r rs ih =>
    obtain ⟨w, hw, hws⟩ := hrev
    simp only [updateRevokedAt] at hupd
    by_cases h2 : r.token = tok2
    · rw [if_pos h2] at hupd
      simp only [Option.some.injEq, Prod.mk.injEq] at hupd
      obtain ⟨hu, hrepo⟩ := hupd
      subst hrepo
      by_cases h1 : r.token = token
      · refine ⟨{ r with revokedAt := some now }, ?_, by simp⟩
        simp [findUniqueByToken, h1]
      · rw [findUniqueByToken, if_neg h1] at hw
        refine ⟨w, ?_, hws⟩
        simp [findUniqueByToken, h1, hw]
    · rw [if_neg h2] at hupd
      cases hrec : updateRevokedAt rs tok2 now with
      | none =>
        rw [hrec] at hupd
        simp at hupd
      | some p =>
        obtain ⟨u2, rs2⟩ := p
        rw [hrec] at hupd
        simp only [] at hupd
        simp only [Option.some.injEq, Prod.mk.injEq] at hupd
        obtain ⟨hu, hrepo⟩ := hupd
        subst hrepo
        by_cases h1 : r.token = token
        · rw [findUniqueByToken, if_pos h1] at hw
          simp only [Option.some.injEq] at hw
          subst hw
          refine ⟨r, ?_, hws⟩
          simp [findUniqueByToken, h1]
        · rw [findUniqueByToken, if_neg h1] at hw
          obtain ⟨w2, hw2, hws2⟩ := ih u2 rs2 hrec ⟨w, hw, hws⟩
          refine ⟨w2, ?_, hws2⟩
          simp [findUniqueByToken, h1, hw2]

/-- A revoked lookup stays revoked when records are appended. -/
theorem revokedOn_append (l l2 : List RefreshTokenRecord) (token : String)
    (h : revokedOn l token) : revokedOn (l ++ l2) token := by
  obtain ⟨w, hw, hws⟩ := h
  refine ⟨w, ?_, hws⟩
  rw [findUniqueByToken_append_of_isSome l l2 token (by simp [hw])]
  exact hw

/-- Every core operation preserves a revoked lookup. -/
theorem step_preserves_revokedOn (repo repo2 : List RefreshTokenRecord)
    (token : String) (hstep : Step repo repo2) (hrev : revokedOn repo token) :
    revokedOn repo2 token := by
  cases hstep with
  | create data newId now => exact revokedOn_append _ _ _ hrev
  | revoke tok2 now2 u r2 hupd =>
    exact updateRevokedAt_preserves_revokedOn _ _ _ _ _ _ hupd hrev

/-- Every reachable state preserves a revoked lookup. -/
theorem reachable_preserves_revokedOn (repo repo2 : List RefreshTokenRecord)
    (token : String) (hreach : Reachable repo repo2) (hrev : revokedOn repo token) :
    revokedOn repo2 token := by
  induction hreach with
  | refl => exact hrev
  | tail hsteps hstep ih => exact step_preserves_revokedOn _ _ _ hstep ih

/-- verify rejects a token whose current record is revoked, at any instant
and under any user lookup. -/
theorem verify_error_of_revokedOn (svc : RefreshTokenService)
    (repo : List RefreshTokenRecord) (now : Nat) (token : String)
    (h : revokedOn repo token) :
    RefreshTokenService.verify svc repo now token =
      Except.error (AuthError.domainError AuthErrorCode.REFRESH_TOKEN_INVALID) := by
  obtain ⟨r, hf, hr⟩ := h
  simp [RefreshTokenService.verify, hf, hr]

/-- Claim C3: once revoke succeeds on a token, verify of that token fails
with REFRESH_TOKEN_INVALID in the resulting state and in every state any
further sequence of core operations can reach from it, at every later
instant and under any user lookup. -/
theorem revoked_token_never_verifies_again (svc : RefreshTokenService)
    (repo repo2 repo3 : List RefreshTokenRecord) (token : String)
    (now later : Nat) (u : RefreshTokenRecord)
    (hrevoke : RefreshTokenService.revoke repo now token = Except.ok (u, repo2))
    (hreach : Reachable repo2 repo3) :
    RefreshTokenService.verify svc repo3 later token =
      Except.error (AuthError.domainError AuthErrorCode.REFRESH_TOKEN_INVALID) := by
  have hupd : updateRevokedAt repo token now = some (u, repo2) := by
    unfold RefreshTokenService.revoke at hrevoke
    cases hx : updateRevokedAt repo token now with
    | none =>
      rw [hx] at hrevoke
      simp at hrevoke
    | some p =>
      rw [hx] at hrevoke
      simp only [] at hrevoke
      simp only [Except.ok.injEq] at hrevoke
      rw [hrevoke]
  have h2 : revokedOn repo2 token := by
    obtain ⟨hf, hr⟩ := updateRevokedAt_self repo token now u repo2 hupd
    exact ⟨u, hf, by simp [hr]⟩
  exact verify_error_of_revokedOn svc repo3 later token
    (reachable_preserves_revokedOn repo2 repo3 token hreach h2)

/-- Witness for claim C3 on a concrete one-record repository. -/
theorem revoked_token_never_verifies_again_witness :
    RefreshTokenService.verify svcBoundary [recAliveRevoked3] 10 "tok-r" =
      Except.error (AuthError.domainError AuthErrorCode.REFRESH_TOKEN_INVALID) :=
  revoked_token_never_verifies_again svcBoundary [recAlive] [recAliveRevoked3]
    [recAliveRevoked3] "tok-r" 3 10 recAliveRevoked3 (by rfl) Relation.ReflTransGen.refl

/-- A repository update maps the record at each position to a record at
the same position with the same token whose revokedAt is either untouched
or set to the revocation instant — never cleared. -/
theorem updateRevokedAt_get (repo : List RefreshTokenRecord) (token : String)
    (now : Nat) (u : RefreshTokenRecord) (repo2 : List RefreshTokenRecord)
    (h : updateRevokedAt repo token now = some (u, repo2)) (i : Nat)
    (r : RefreshTokenRecord) (hr : repo[i]? = some r) :
    ∃ r2, repo2[i]? = some r2 ∧ r2.token = r.token ∧
      (r2.revokedAt = r.revokedAt ∨ r2.revokedAt = some now) := by
  induction repo generalizing u repo2 i with
  | nil => simp [updateRevokedAt] at h
  | cons x xs ih =>
    simp only [updateRevokedAt] at h
    by_cases hx : x.token = token
    · rw [if_pos hx] at h
      simp only [Option.some.injEq, Prod.mk.injEq] at h
      obtain ⟨hu, hrepo⟩ := h
      subst hrepo
      cases i with
      | zero =>
        rw [List.getElem?_cons_zero] at hr
        simp only [Option.some.injEq] at hr
        subst hr
        exact ⟨{ x with revokedAt := some now }, List.getElem?_cons_zero, rfl, Or.inr rfl⟩
      | succ n =>
        rw [List.getElem?_cons_succ] at hr
        exact ⟨r, by rw [List.getElem?_cons_succ]; exact hr, rfl, Or.inl rfl⟩
    · rw [if_neg hx] at h
      cases hrec : updateRevokedAt xs token now with
      | none =>
        rw [hrec] at h
        simp at h
      | some p =>
        obtain ⟨u2, rs2⟩ := p
        rw [hrec] at h
        simp only [] at h
        simp only [Option.some.injEq, Prod.mk.injEq] at h
        obtain ⟨hu, hrepo⟩ := h
        subst hrepo
        cases i with
        | zero =>
          rw [List.getElem?_cons_zero] at hr
          simp only [Option.some.injEq] at hr
          subst hr
          exact ⟨x, List.getElem?_cons_zero, rfl, Or.inl rfl⟩
        | succ n =>
          rw [List.getElem?_cons_succ] at hr
          obtain ⟨r2, h1, h2, h3⟩ := ih u2 rs2 hrec n hr
          exact ⟨r2, by rw [List.getElem?_cons_succ]; exact h1, h2, h3⟩

/-- Claim C9 (amended): no core operation ever clears a set revokedAt back
to null — each repository step leaves, at the position of a record whose
revokedAt is set, a record with the same token whose revokedAt is still
set; a repeated revoke may however overwrite the timestamp itself. -/
theorem revokedAt_never_cleared (repo repo2 : List RefreshTokenRecord)
    (hstep : Step repo repo2) (i : Nat) (r : RefreshTokenRecord)
    (hr : repo[i]? = some r) (hset : r.revokedAt.isSome = true) :
    ∃ r2, repo2[i]? = some r2 ∧ r2.token = r.token ∧ r2.revokedAt.isSome = true := by
  cases hstep with
  | create data newId now =>
    have hlen : i < repo.length := by
      by_contra hc
      push_neg at hc
      rw [List.getElem?_eq_none hc] at hr
      cases hr
    refine ⟨r, ?_, rfl, hset⟩
    show (repo ++ [_])[i]? = some r
    rw [List.getElem?_append, if_pos hlen]
    exact hr
  | revoke token now u r2 hupd =>
    obtain ⟨r2, h1, h2, h3⟩ := updateRevokedAt_get repo token now u _ hupd i r hr
    refine ⟨r2, h1, h2, ?_⟩
    rcases h3 with h3 | h3
    · rw [h3]
      exact hset
    · rw [h3]
      rfl

/-- Witness for the amended claim C9: a revoke step on a repository whose
only record is already revoked still leaves that record revoked. -/
theorem revokedAt_never_cleared_witness :
    ∃ r2, [{ recRevoked5 with revokedAt := some 7 }][0]? = some r2 ∧
      r2.token = recRevoked5.token ∧ r2.revokedAt.isSome = true :=
  revokedAt_never_cleared [recRevoked5] [{ recRevoked5 with revokedAt := some 7 }]
    (Step.revoke [recRevoked5] "tok-q" 7 { recRevoked5 with revokedAt := some 7 }
      [{ recRevoked5 with revokedAt := some 7 }] rfl)
    0 recRevoked5 rfl rfl

/-- Claim C9 counterexample: a second revoke of an already-revoked token
succeeds and overwrites the stored revokedAt with the new instant — the
stored value does change. -/
theorem second_revoke_overwrites_revokedAt :
    RefreshTokenService.revoke [recRevoked5] 7 "tok-q" =
      Except.ok ({ recRevoked5 with revokedAt := some 7 },
        [{ recRevoked5 with revokedAt := some 7 }])
    ∧ ({ recRevoked5 with revokedAt := some 7 } : RefreshTokenRecord).revokedAt ≠
        recRevoked5.revokedAt := by
  constructor
  · rfl
  · decide

/-- Claim C8 counterexample: initialize the module, then reset — the
stored configuration is still present and the access-service getter still
succeeds, while in the genuine pre-init state the configuration is absent
and the getter fails fatally; so the reset does not restore the
pre-initialization state. -/
theorem reset_keeps_config_counterexample :
    (__resetAuthTokensModuleForTests
        (initAuthTokensModule initialAuthModuleState cfg0)).config = some cfg0
    ∧ initialAuthModuleState.config = none
    ∧ getAccessTokenServiceM initialAuthModuleState =
        Except.error "AuthTokensModule is not initialized"
    ∧ ∃ p, getAccessTokenServiceM
        (__resetAuthTokensModuleForTests
          (initAuthTokensModule initialAuthModuleState cfg0)) = Except.ok p :=
  ⟨rfl, rfl, rfl, ⟨_, rfl⟩⟩

/-- Claim C8 (amended): the test-only reset clears every lazily-built
singleton holder and the one-time-log guard, but leaves the stored
configuration exactly as it was, so after a reset the module rebuilds
services from the retained configuration instead of reverting to its
pre-init state. -/
theorem reset_clears_singletons_keeps_config (s : AuthModuleState) :
    (__resetAuthTokensModuleForTests s).accessTokenServiceInst = none
    ∧ (__resetAuthTokensModuleForTests s).refreshTokenServiceInst = none
    ∧ (__resetAuthTokensModuleForTests s).authTokensServiceInst = none
    ∧ (__resetAuthTokensModuleForTests s).loggedServices = []
    ∧ (__resetAuthTokensModuleForTests s).config = s.config :=
  ⟨rfl, rfl, rfl, rfl, rfl⟩
